import Mathlib

/-!
Shallow embedding of `src/raspberry-pi-display/python_matrix_driver.py`, the
scroll/pause marquee driver of the commute-display-hub repository.

The Python program is one big `while True` loop in `main` (lines 95-242).
Each loop iteration ("tick") reads at most one line from stdin into the
single-slot buffer `next_message`, runs the state machine over the mutable
locals of `main`, and then draws one frame.  We embed that loop body as a
pure function `tick` over an explicit `DriverState` record, with
floating-point time and the scroll offset modelled as rationals, and the
external `luma` text-width call modelled as an `Option Nat`-valued field of
a `Config` record (`none` models the call raising an exception, which the
Python wraps in `try/except`).
-/

namespace MatrixDriver

/-- Phase values of the Python `state` variable in `main`:
`"scrolling"`, `"paused"` and `"idle_after_pause"`. -/
inductive Phase where
  | scrolling
  | paused
  | idle_after_pause
  deriving DecidableEq

/-- External collaborators of the driver.  `W` is `device.width` (32 pixels
on the 4-block cascaded MAX7219 the script configures); `textsize` is the
`luma.core.legacy.textsize` width component for the fixed `CP437_FONT`,
with `none` modelling the call raising an exception (lines 41-44). -/
structure Config where
  W : Nat
  textsize : String → Option Nat

/-- Scroll speed constant `SCROLL_SPEED_PPS = 13` (line 19). -/
def SCROLL_SPEED_PPS : ℚ := 13

/-- End pause dwell constant `END_PAUSE_S = 10` (line 21). -/
def END_PAUSE_S : ℚ := 10

/-- Python `int()` applied to a float: truncation toward zero. -/
def pyInt (q : ℚ) : ℤ := if 0 ≤ q then ⌊q⌋ else ⌈q⌉

/-- Python 3 `round()` applied to a float: round half to even.  This is the
function the SPEC's words `draw_x = display_width - round(offset)` name; the
source itself uses `int()` (`pyInt`), so this definition exists only to be
compared against the one translated from the source. -/
def pyRound (q : ℚ) : ℤ :=
  if q - ⌊q⌋ < 1/2 then ⌊q⌋
  else if (1 : ℚ)/2 < q - ⌊q⌋ then ⌊q⌋ + 1
  else if ⌊q⌋ % 2 = 0 then ⌊q⌋ else ⌊q⌋ + 1

/-- Truthiness of the Python `time_string` variable (`None` and `""` are
falsy, any other string truthy), as used by `if time_string and ...`. -/
def pyTruthy : Option String → Bool
  | none => false
  | some t => !(t == "")

/-- One step of the charset substitution of lines 127, 144, 207. -/
def pySubstChar (c : Char) : Char :=
  if c = 'Ö' then 'O' else if c = 'ö' then 'o' else c

/-- The charset substitution `current_message.replace('Ö', 'O').replace('ö', 'o')`
applied on every message-acceptance path (lines 127, 144, 207).  Python
`str.replace` with a one-character pattern and a one-character replacement
substitutes every occurrence of that character, and the second `replace`
cannot touch the output characters of the first (`'O'`/`'o'` are not `'ö'`),
so the two sequential calls are one character-wise map. -/
def pySubst (s : String) : String :=
  ⟨s.data.map pySubstChar⟩

/-- Matches `\d+\s+min` against an entire character list (used for the first
regex alternative anchored at position 0 and at `$`).  Digits, whitespace
and the letter `m` are disjoint character classes, so the greedy
`takeWhile`/`dropWhile` split is the only split the regex engine can use. -/
def isMinToken (cs : List Char) : Bool :=
  let ds := cs.takeWhile Char.isDigit
  let rest := cs.dropWhile Char.isDigit
  let ws := rest.takeWhile Char.isWhitespace
  let rest2 := rest.dropWhile Char.isWhitespace
  !ds.isEmpty && !ws.isEmpty && rest2 == ['m', 'i', 'n']

/-- Matches `\d{1,2}:\d{2}` against an entire character list (third regex
alternative: one or two digits, a colon, exactly two digits). -/
def isClockToken (cs : List Char) : Bool :=
  match cs with
  | [a, b, c, d] => a.isDigit && b == ':' && c.isDigit && d.isDigit
  | [a, a2, b, c, d] => a.isDigit && a2.isDigit && b == ':' && c.isDigit && d.isDigit
  | _ => false

/-- Matches `\d+` against an entire character list (fourth regex
alternative: a non-empty all-digit string). -/
def isDigitsToken (cs : List Char) : Bool :=
  !cs.isEmpty && cs.all Char.isDigit

/-- Embedding of `parse_time_string` (lines 24-31):

    re.search(r'(\b\d+\s+min)$|\b(Nu)$|(\b\d{1,2}:\d{2})$|(\b\d+)$|', message)

`re.search` returns the leftmost match, trying the five alternatives in
order at each start position.  The FIFTH alternative is empty (the regex
ends in a stray `|`), so the pattern matches the empty string at position 0
of every input: the search therefore always succeeds at position 0, with
all four groups `None` unless one of the real alternatives matches starting
at position 0.  Because each real alternative is anchored at `$`, a group is
produced exactly when the ENTIRE message is one token.  The `\b` at the
start of each alternative is vacuous at position 0 (every alternative
begins with a digit or the word character `N`).  `\d`/`\s` are modelled by
their ASCII cores `Char.isDigit`/`Char.isWhitespace`, which agree with
Python on all inputs the driver sees (stripped stdin lines). -/
def parse_time_string (message : String) : Option String :=
  if message = "" then none
  else if isMinToken message.toList then some message
  else if message = "Nu" then some "Nu"
  else if isClockToken message.toList then some message
  else if isDigitsToken message.toList then some message
  else none

/-- Embedding of `get_message_width` (lines 33-44): 0 for the empty string,
the `textsize` width when the call succeeds, and the fallback estimate
`len(message) * 6` when it raises (`except` branch, line 44). -/
def get_message_width (cfg : Config) (message : String) : Nat :=
  if message = "" then 0
  else
    match cfg.textsize message with
    | some w => w
    | none => message.length * 6

/-- The mutable locals of `main` that the loop body reads and writes
(lines 79-90), plus the frame-local `draw_x`, which in Python is a
function-scoped local surviving across iterations; it is written before it
is read on every path that draws, so its initial value 0 here is never
observed. -/
structure DriverState where
  current_message : String
  display_message : String
  next_message : Option String
  message_pixel_width : Nat
  time_string : Option String
  current_x_offset : ℚ
  last_update_time : ℚ
  state : Phase
  pause_start_time : ℚ
  pause_draw_x : ℤ
  draw_x : ℤ
  deriving DecidableEq

/-- Initialization of the state variables (lines 79-90), with `t0` the value
of `time.monotonic()` at startup. -/
def initState (cfg : Config) (t0 : ℚ) : DriverState :=
  { current_message := "Starting..."
  , display_message := "Starting..."
  , next_message := none
  , message_pixel_width := get_message_width cfg "Starting..."
  , time_string := parse_time_string "Starting..."
  , current_x_offset := 0
  , last_update_time := t0
  , state := Phase.idle_after_pause
  , pause_start_time := 0
  , pause_draw_x := 0
  , draw_x := 0 }

/-- The stdin poll of one tick (lines 100-115): `inp = none` models nothing
readable this tick; `inp = some line` models one stripped line, possibly
empty.  Both the non-empty and the empty branch overwrite the single-slot
buffer `next_message`. -/
def readStdin (s : DriverState) (inp : Option String) : DriverState :=
  match inp with
  | none => s
  | some line => { s with next_message := some line }

/-- The common message-acceptance block (lines 126-137, 143-154, 206-217):
substitute the display text, clear the buffer, recompute width and time
suffix, reset the offset and the integration clock, and (re)enter
`"scrolling"`. -/
def acceptMessage (cfg : Config) (time_now : ℚ) (msg : String) (s : DriverState) : DriverState :=
  { s with current_message := msg
         , display_message := pySubst msg
         , next_message := none
         , message_pixel_width := get_message_width cfg (pySubst msg)
         , time_string := parse_time_string (pySubst msg)
         , current_x_offset := 0
         , last_update_time := time_now
         , state := Phase.scrolling
         , pause_start_time := 0
         , pause_draw_x := 0 }

/-- The `if state == "scrolling"` block (lines 139-190).  The returned
`Bool` is `true` exactly on the `continue` path (line 157), which skips the
frame draw of this iteration.  `end_pause_trigger_offset` (line 170) is
inlined as `(pw : ℚ) - (W : ℚ)`; `draw_x = device.width - int(offset)` is
line 173; the pause condition is line 176, the off-screen `elif` line 187. -/
def scrollTick (cfg : Config) (time_now : ℚ) (s : DriverState) : DriverState × Bool :=
  match s.next_message with
  | some msg => (acceptMessage cfg time_now msg s, true)
  | none =>
    let off := s.current_x_offset + SCROLL_SPEED_PPS * (time_now - s.last_update_time)
    let dx : ℤ := (cfg.W : ℤ) - pyInt off
    let s2 := { s with current_x_offset := off, last_update_time := time_now, draw_x := dx }
    if pyTruthy s2.time_string = true ∧ cfg.W < s2.message_pixel_width ∧
        (s2.message_pixel_width : ℚ) - (cfg.W : ℚ) ≤ off then
      ({ s2 with pause_draw_x := (cfg.W : ℤ) - (s2.message_pixel_width : ℤ)
               , state := Phase.paused
               , pause_start_time := time_now }, false)
    else if dx < -(s2.message_pixel_width : ℤ) then
      ({ s2 with state := Phase.idle_after_pause, display_message := "" }, false)
    else (s2, false)

/-- The `elif state == "paused"` block (lines 192-217): hold `draw_x` at the
frozen `pause_draw_x`, leave for idle (clearing the display text) once the
dwell has elapsed, and only THEN check the buffer, so a message pending on
the expiry tick still wins and restarts scrolling. -/
def pausedTick (cfg : Config) (time_now : ℚ) (s : DriverState) : DriverState :=
  let s1 := { s with draw_x := s.pause_draw_x }
  let s2 := if END_PAUSE_S ≤ time_now - s1.pause_start_time then
              { s1 with state := Phase.idle_after_pause, display_message := "" }
            else s1
  match s2.next_message with
  | some msg => acceptMessage cfg time_now msg s2
  | none => s2

/-- The `elif state == "idle_after_pause"` block (lines 219-224):
`draw_x = pause_draw_x if display_message else 0`. -/
def idleTick (s : DriverState) : DriverState :=
  { s with draw_x := if s.display_message = "" then 0 else s.pause_draw_x }

/-- The state-machine section of one loop iteration (lines 117-225): first
the idle-and-buffered transition of line 124, then the
`if "scrolling" / elif "paused" / elif "idle_after_pause"` chain dispatched
on the possibly-updated phase. -/
def stateMachine (cfg : Config) (time_now : ℚ) (s0 : DriverState) : DriverState × Bool :=
  let s1 := match s0.state, s0.next_message with
    | Phase.idle_after_pause, some msg => acceptMessage cfg time_now msg s0
    | _, _ => s0
  match s1.state with
  | Phase.scrolling => scrollTick cfg time_now s1
  | Phase.paused => (pausedTick cfg time_now s1, false)
  | Phase.idle_after_pause => (idleTick s1, false)

/-- One full loop iteration: stdin poll, then state machine.  The `Bool`
component is `true` on the `continue` path (no frame drawn). -/
def tick (cfg : Config) (time_now : ℚ) (inp : Option String) (s : DriverState) : DriverState × Bool :=
  stateMachine cfg time_now (readStdin s inp)

/-- The draw section (lines 227-232): `none` when nothing is drawn this
iteration (the `continue` path, or an empty `display_message`, for which the
canvas context clears the device), otherwise the `(draw_x, text)` pair
handed to `text(draw, (draw_x, 0), display_message, ...)`. -/
def drawFrame (r : DriverState × Bool) : Option (ℤ × String) :=
  if r.2 = true then none
  else if r.1.display_message = "" then none
  else some (r.1.draw_x, r.1.display_message)

/-- States of the driver reachable from startup by any sequence of ticks. -/
inductive Reachable (cfg : Config) : DriverState → Prop where
  | init : ∀ t0 : ℚ, Reachable cfg (initState cfg t0)
  | step : ∀ (s : DriverState) (time_now : ℚ) (inp : Option String),
      Reachable cfg s → Reachable cfg (tick cfg time_now inp s).1

/-- A concrete configuration for witnesses: the 4-block device (width 32)
with the fixed-width 8-pixels-per-glyph `CP437_FONT` metrics. -/
def cfg0 : Config := ⟨32, fun t => some (8 * t.length)⟩

/-- A concrete configuration whose metrics call always raises. -/
def cfgBad : Config := ⟨32, fun _ => none⟩

/-- The invariant tied to the `"paused"` phase: a truthy time suffix, a
message wider than the display, and the frozen draw position
`device.width - message_pixel_width` (line 182). -/
def PausedInv (cfg : Config) (s : DriverState) : Prop :=
  pyTruthy s.time_string = true ∧ cfg.W < s.message_pixel_width ∧
    s.pause_draw_x = (cfg.W : ℤ) - (s.message_pixel_width : ℤ)

/-! ### Unfolding lemmas for the loop body -/

theorem tick_none (cfg : Config) (time_now : ℚ) (s : DriverState) :
    tick cfg time_now none s = stateMachine cfg time_now s := rfl

theorem tick_some (cfg : Config) (time_now : ℚ) (inp : String) (s : DriverState) :
    tick cfg time_now (some inp) s =
      stateMachine cfg time_now { s with next_message := some inp } := rfl

theorem stateMachine_scrolling (cfg : Config) (time_now : ℚ) (s : DriverState)
    (h : s.state = Phase.scrolling) :
    stateMachine cfg time_now s = scrollTick cfg time_now s := by
  simp [stateMachine, h]

theorem stateMachine_paused (cfg : Config) (time_now : ℚ) (s : DriverState)
    (h : s.state = Phase.paused) :
    stateMachine cfg time_now s = (pausedTick cfg time_now s, false) := by
  simp [stateMachine, h]

theorem stateMachine_idle_noMsg (cfg : Config) (time_now : ℚ) (s : DriverState)
    (h : s.state = Phase.idle_after_pause) (hn : s.next_message = none) :
    stateMachine cfg time_now s = (idleTick s, false) := by
  simp [stateMachine, h, hn]

theorem stateMachine_idle_msg (cfg : Config) (time_now : ℚ) (s : DriverState)
    (m : String) (h : s.state = Phase.idle_after_pause) (hn : s.next_message = some m) :
    stateMachine cfg time_now s =
      scrollTick cfg time_now (acceptMessage cfg time_now m s) := by
  simp [stateMachine, h, hn, acceptMessage]

theorem scrollTick_interrupt (cfg : Config) (time_now : ℚ) (s : DriverState)
    (m : String) (hn : s.next_message = some m) :
    scrollTick cfg time_now s = (acceptMessage cfg time_now m s, true) := by
  simp [scrollTick, hn]

theorem pausedTick_interrupt (cfg : Config) (time_now : ℚ) (s : DriverState)
    (m : String) (hn : s.next_message = some m) :
    ∃ s2 : DriverState, pausedTick cfg time_now s = acceptMessage cfg time_now m s2 := by
  by_cases hc : END_PAUSE_S ≤ time_now - s.pause_start_time
  · exact ⟨{ s with draw_x := s.pause_draw_x
                  , state := Phase.idle_after_pause
                  , display_message := "" }, by simp [pausedTick, hc, hn]⟩
  · exact ⟨{ s with draw_x := s.pause_draw_x }, by simp [pausedTick, hc, hn]⟩

theorem pausedTick_stay (cfg : Config) (time_now : ℚ) (s : DriverState)
    (hn : s.next_message = none) (ht : time_now - s.pause_start_time < END_PAUSE_S) :
    pausedTick cfg time_now s = { s with draw_x := s.pause_draw_x } := by
  have hc : ¬ END_PAUSE_S ≤ time_now - s.pause_start_time := not_le.mpr ht
  simp [pausedTick, hc, hn]

theorem pausedTick_expire (cfg : Config) (time_now : ℚ) (s : DriverState)
    (hn : s.next_message = none) (ht : END_PAUSE_S ≤ time_now - s.pause_start_time) :
    pausedTick cfg time_now s =
      { s with draw_x := s.pause_draw_x
             , state := Phase.idle_after_pause
             , display_message := "" } := by
  simp [pausedTick, ht, hn]

theorem acceptMessage_fields (cfg : Config) (time_now : ℚ) (m : String) (s : DriverState) :
    (acceptMessage cfg time_now m s).state = Phase.scrolling ∧
    (acceptMessage cfg time_now m s).current_message = m ∧
    (acceptMessage cfg time_now m s).display_message = pySubst m ∧
    (acceptMessage cfg time_now m s).next_message = none ∧
    (acceptMessage cfg time_now m s).message_pixel_width = get_message_width cfg (pySubst m) ∧
    (acceptMessage cfg time_now m s).time_string = parse_time_string (pySubst m) ∧
    (acceptMessage cfg time_now m s).current_x_offset = 0 ∧
    (acceptMessage cfg time_now m s).last_update_time = time_now := by
  simp [acceptMessage]

theorem pyInt_zero : pyInt 0 = 0 := by simp [pyInt]

theorem pyInt_eq_of_nonneg (q : ℚ) (n : ℤ) (h0 : 0 ≤ q) (h1 : (n : ℚ) ≤ q)
    (h2 : q < n + 1) : pyInt q = n := by
  unfold pyInt
  rw [if_pos h0, Int.floor_eq_iff]
  exact ⟨h1, h2⟩

theorem scrollTick_noMsg (cfg : Config) (time_now : ℚ) (s : DriverState)
    (hn : s.next_message = none) :
    (scrollTick cfg time_now s).2 = false ∧
    (scrollTick cfg time_now s).1.current_x_offset =
        s.current_x_offset + SCROLL_SPEED_PPS * (time_now - s.last_update_time) ∧
    (scrollTick cfg time_now s).1.last_update_time = time_now ∧
    (scrollTick cfg time_now s).1.draw_x =
        (cfg.W : ℤ) -
          pyInt (s.current_x_offset + SCROLL_SPEED_PPS * (time_now - s.last_update_time)) ∧
    (scrollTick cfg time_now s).1.message_pixel_width = s.message_pixel_width ∧
    (scrollTick cfg time_now s).1.time_string = s.time_string ∧
    (scrollTick cfg time_now s).1.next_message = none ∧
    (scrollTick cfg time_now s).1.current_message = s.current_message := by
  simp only [scrollTick, hn]
  split_ifs <;> simp

theorem scrollTick_pause (cfg : Config) (time_now : ℚ) (s : DriverState)
    (hn : s.next_message = none)
    (hts : pyTruthy s.time_string = true) (hw : cfg.W < s.message_pixel_width)
    (hoff : (s.message_pixel_width : ℚ) - (cfg.W : ℚ) ≤
        s.current_x_offset + SCROLL_SPEED_PPS * (time_now - s.last_update_time)) :
    (scrollTick cfg time_now s).1.state = Phase.paused ∧
    (scrollTick cfg time_now s).1.pause_draw_x =
        (cfg.W : ℤ) - (s.message_pixel_width : ℤ) ∧
    (scrollTick cfg time_now s).1.pause_start_time = time_now ∧
    (scrollTick cfg time_now s).1.display_message = s.display_message := by
  simp only [scrollTick, hn]
  split_ifs with h1 h2
  · simp
  · exact absurd ⟨hts, hw, hoff⟩ h1
  · exact absurd ⟨hts, hw, hoff⟩ h1

theorem scrollTick_offscreen (cfg : Config) (time_now : ℚ) (s : DriverState)
    (hn : s.next_message = none)
    (hc : ¬ (pyTruthy s.time_string = true ∧ cfg.W < s.message_pixel_width ∧
        (s.message_pixel_width : ℚ) - (cfg.W : ℚ) ≤
          s.current_x_offset + SCROLL_SPEED_PPS * (time_now - s.last_update_time)))
    (hd : (cfg.W : ℤ) -
        pyInt (s.current_x_offset + SCROLL_SPEED_PPS * (time_now - s.last_update_time)) <
        -(s.message_pixel_width : ℤ)) :
    (scrollTick cfg time_now s).1.state = Phase.idle_after_pause ∧
    (scrollTick cfg time_now s).1.display_message = "" := by
  simp only [scrollTick, hn]
  split_ifs
  simp

theorem scrollTick_keep (cfg : Config) (time_now : ℚ) (s : DriverState)
    (hn : s.next_message = none)
    (hc : ¬ (pyTruthy s.time_string = true ∧ cfg.W < s.message_pixel_width ∧
        (s.message_pixel_width : ℚ) - (cfg.W : ℚ) ≤
          s.current_x_offset + SCROLL_SPEED_PPS * (time_now - s.last_update_time)))
    (hd : ¬ ((cfg.W : ℤ) -
        pyInt (s.current_x_offset + SCROLL_SPEED_PPS * (time_now - s.last_update_time)) <
        -(s.message_pixel_width : ℤ))) :
    (scrollTick cfg time_now s).1.state = s.state ∧
    (scrollTick cfg time_now s).1.display_message = s.display_message ∧
    (scrollTick cfg time_now s).1.pause_draw_x = s.pause_draw_x ∧
    (scrollTick cfg time_now s).1.pause_start_time = s.pause_start_time := by
  simp only [scrollTick, hn]
  split_ifs
  simp

theorem scrollTick_after_accept (cfg : Config) (time_now : ℚ) (m : String) (s : DriverState) :
    (scrollTick cfg time_now (acceptMessage cfg time_now m s)).2 = false ∧
    (scrollTick cfg time_now (acceptMessage cfg time_now m s)).1.state = Phase.scrolling ∧
    (scrollTick cfg time_now (acceptMessage cfg time_now m s)).1.current_message = m ∧
    (scrollTick cfg time_now (acceptMessage cfg time_now m s)).1.display_message = pySubst m ∧
    (scrollTick cfg time_now (acceptMessage cfg time_now m s)).1.next_message = none ∧
    (scrollTick cfg time_now (acceptMessage cfg time_now m s)).1.message_pixel_width =
        get_message_width cfg (pySubst m) ∧
    (scrollTick cfg time_now (acceptMessage cfg time_now m s)).1.time_string =
        parse_time_string (pySubst m) ∧
    (scrollTick cfg time_now (acceptMessage cfg time_now m s)).1.current_x_offset = 0 ∧
    (scrollTick cfg time_now (acceptMessage cfg time_now m s)).1.last_update_time = time_now := by
  simp only [scrollTick, acceptMessage]
  split_ifs with h1 h2
  · exfalso
    obtain ⟨-, hw, hle⟩ := h1
    have hlt : ((cfg.W : ℚ)) < (get_message_width cfg (pySubst m) : ℚ) := by
      exact_mod_cast hw
    have hz : (0 : ℚ) + SCROLL_SPEED_PPS * (time_now - time_now) = 0 := by ring
    rw [hz] at hle
    linarith
  · exfalso
    have hz : (0 : ℚ) + SCROLL_SPEED_PPS * (time_now - time_now) = 0 := by ring
    rw [hz, pyInt_zero] at h2
    omega
  · constructor
    · rfl
    constructor
    · rfl
    refine ⟨rfl, rfl, rfl, rfl, rfl, by ring, rfl⟩

theorem idleTick_fields (s : DriverState) :
    (idleTick s).state = s.state ∧
    (idleTick s).display_message = s.display_message ∧
    (idleTick s).current_message = s.current_message ∧
    (idleTick s).next_message = s.next_message ∧
    (idleTick s).draw_x = (if s.display_message = "" then 0 else s.pause_draw_x) := by
  simp [idleTick]

theorem stateMachine_accept (cfg : Config) (time_now : ℚ) (s : DriverState) (m : String)
    (h : s.next_message = some m) :
    (stateMachine cfg time_now s).1.state = Phase.scrolling ∧
    (stateMachine cfg time_now s).1.current_message = m ∧
    (stateMachine cfg time_now s).1.display_message = pySubst m ∧
    (stateMachine cfg time_now s).1.next_message = none ∧
    (stateMachine cfg time_now s).1.message_pixel_width = get_message_width cfg (pySubst m) ∧
    (stateMachine cfg time_now s).1.time_string = parse_time_string (pySubst m) ∧
    (stateMachine cfg time_now s).1.current_x_offset = 0 ∧
    (stateMachine cfg time_now s).1.last_update_time = time_now := by
  cases hst : s.state with
  | scrolling =>
      rw [stateMachine_scrolling cfg time_now s hst, scrollTick_interrupt cfg time_now s m h]
      exact acceptMessage_fields cfg time_now m s
  | paused =>
      rw [stateMachine_paused cfg time_now s hst]
      obtain ⟨s2, hs2⟩ := pausedTick_interrupt cfg time_now s m h
      rw [hs2]
      exact acceptMessage_fields cfg time_now m s2
  | idle_after_pause =>
      rw [stateMachine_idle_msg cfg time_now s m hst h]
      obtain ⟨-, h1, h2, h3, h4, h5, h6, h7, h8⟩ := scrollTick_after_accept cfg time_now m s
      exact ⟨h1, h2, h3, h4, h5, h6, h7, h8⟩

theorem scrollTick_pausedInv (cfg : Config) (time_now : ℚ) (s : DriverState)
    (hs : s.state = Phase.scrolling) :
    (scrollTick cfg time_now s).1.state = Phase.paused →
      PausedInv cfg (scrollTick cfg time_now s).1 := by
  intro hp
  cases hn : s.next_message with
  | some m =>
      rw [scrollTick_interrupt cfg time_now s m hn] at hp
      simp [acceptMessage] at hp
  | none =>
      by_cases hc : pyTruthy s.time_string = true ∧ cfg.W < s.message_pixel_width ∧
          (s.message_pixel_width : ℚ) - (cfg.W : ℚ) ≤
            s.current_x_offset + SCROLL_SPEED_PPS * (time_now - s.last_update_time)
      · obtain ⟨hts, hw, hoff⟩ := hc
        obtain ⟨hstate, hpdx, hpst, hdm⟩ := scrollTick_pause cfg time_now s hn hts hw hoff
        obtain ⟨-, -, -, -, hwd, hts2, -, -⟩ := scrollTick_noMsg cfg time_now s hn
        refine ⟨by rw [hts2]; exact hts, by rw [hwd]; exact hw, by rw [hpdx, hwd]⟩
      · by_cases hd : (cfg.W : ℤ) -
            pyInt (s.current_x_offset + SCROLL_SPEED_PPS * (time_now - s.last_update_time)) <
            -(s.message_pixel_width : ℤ)
        · obtain ⟨hstate, -⟩ := scrollTick_offscreen cfg time_now s hn hc hd
          rw [hstate] at hp
          exact absurd hp (by simp)
        · obtain ⟨hstate, -, -, -⟩ := scrollTick_keep cfg time_now s hn hc hd
          rw [hstate, hs] at hp
          exact absurd hp (by simp)

theorem pausedTick_pausedInv (cfg : Config) (time_now : ℚ) (s : DriverState)
    (hinv : PausedInv cfg s) :
    (pausedTick cfg time_now s).state = Phase.paused →
      PausedInv cfg (pausedTick cfg time_now s) := by
  intro hp
  cases hn : s.next_message with
  | some m =>
      obtain ⟨s2, hs2⟩ := pausedTick_interrupt cfg time_now s m hn
      rw [hs2] at hp
      simp [acceptMessage] at hp
  | none =>
      by_cases hc : END_PAUSE_S ≤ time_now - s.pause_start_time
      · rw [pausedTick_expire cfg time_now s hn hc] at hp
        simp at hp
      · rw [pausedTick_stay cfg time_now s hn (not_le.mp hc)]
        exact hinv

theorem stateMachine_pausedInv (cfg : Config) (time_now : ℚ) (s : DriverState)
    (ih : s.state = Phase.paused → PausedInv cfg s) :
    (stateMachine cfg time_now s).1.state = Phase.paused →
      PausedInv cfg (stateMachine cfg time_now s).1 := by
  cases hst : s.state with
  | scrolling =>
      rw [stateMachine_scrolling cfg time_now s hst]
      exact scrollTick_pausedInv cfg time_now s hst
  | paused =>
      rw [stateMachine_paused cfg time_now s hst]
      exact pausedTick_pausedInv cfg time_now s (ih hst)
  | idle_after_pause =>
      cases hn : s.next_message with
      | some m =>
          rw [stateMachine_idle_msg cfg time_now s m hst hn]
          exact scrollTick_pausedInv cfg time_now (acceptMessage cfg time_now m s)
            (by simp [acceptMessage])
      | none =>
          rw [stateMachine_idle_noMsg cfg time_now s hst hn]
          intro hp
          rw [(idleTick_fields s).1, hst] at hp
          exact absurd hp (by simp)

theorem reachable_pausedInv (cfg : Config) (s : DriverState) (h : Reachable cfg s) :
    s.state = Phase.paused → PausedInv cfg s := by
  induction h with
  | init t0 =>
      intro hp
      simp [initState] at hp
  | step s time_now inp hr ih =>
      cases inp with
      | none =>
          rw [tick_none]
          exact stateMachine_pausedInv cfg time_now s ih
      | some line =>
          rw [tick_some]
          refine stateMachine_pausedInv cfg time_now { s with next_message := some line } ?_
          intro hp
          exact ih hp

/-! ### Claims -/

/-- C3: evaluation of the embedded `parse_time_string` at the spec scenario
inputs.  The code agrees with the claim on `"3 min"`, `"14:05"` and
`"Hello"`, but returns `none` for `"Arriving Nu"` where the claim requires
`"Nu"`: the stray empty alternative terminating the regex makes `re.search`
succeed with a zero-width match at position 0 whenever no real alternative
matches starting at position 0, so a suffix is extracted only when the
whole message is one time token.  In particular the driver's own motivating
message `"134 Östberghöjden 3 min"` (comment, line 48) also yields `none`. -/
theorem parse_time_string_scenarios :
    parse_time_string "3 min" = some "3 min" ∧
    parse_time_string "Arriving Nu" = none ∧
    parse_time_string "14:05" = some "14:05" ∧
    parse_time_string "Hello" = none ∧
    parse_time_string "Nu" = some "Nu" ∧
    parse_time_string "134 Ostberghojden 3 min" = none := by
  decide

/-- C1: interruption idempotence.  On any tick on which a non-empty message
is pending in the buffer, whatever the current phase, the state machine
ends the arrival handling in phase `scrolling` with the offset reset to 0,
the integration clock (`last_update_time`, the spec's `phase_start_time`)
set to the tick's `time_now`, and the active message set to the new message
with its pixel width and time suffix recomputed from the substituted
display text. -/
theorem interruption_starts_scrolling :
    ∀ (cfg : Config) (time_now : ℚ) (s : DriverState) (m : String),
      s.next_message = some m → m ≠ "" →
      (stateMachine cfg time_now s).1.state = Phase.scrolling ∧
      (stateMachine cfg time_now s).1.current_x_offset = 0 ∧
      (stateMachine cfg time_now s).1.last_update_time = time_now ∧
      (stateMachine cfg time_now s).1.current_message = m ∧
      (stateMachine cfg time_now s).1.display_message = pySubst m ∧
      (stateMachine cfg time_now s).1.message_pixel_width =
          get_message_width cfg (pySubst m) ∧
      (stateMachine cfg time_now s).1.time_string = parse_time_string (pySubst m) := by
  intro cfg time_now s m h hm
  obtain ⟨h1, h2, h3, -, h5, h6, h7, h8⟩ := stateMachine_accept cfg time_now s m h
  exact ⟨h1, h7, h8, h2, h3, h5, h6⟩

/-- C1 witness: the theorem applied to a concrete pending message in the
startup idle state. -/
theorem interruption_starts_scrolling_witness :
    ({ initState cfg0 0 with next_message := some "Hej" } : DriverState).next_message =
        some "Hej" ∧
    ("Hej" : String) ≠ "" ∧
    (stateMachine cfg0 5 { initState cfg0 0 with next_message := some "Hej" }).1.state =
        Phase.scrolling ∧
    (stateMachine cfg0 5 { initState cfg0 0 with next_message := some "Hej" }).1.current_x_offset =
        0 := by
  refine ⟨rfl, by decide, ?_, ?_⟩
  · exact (interruption_starts_scrolling cfg0 5 _ "Hej" rfl (by decide)).1
  · exact (interruption_starts_scrolling cfg0 5 _ "Hej" rfl (by decide)).2.1

/-- C10: on every acceptance path (idle transition, scroll interrupt, pause
interrupt — all phases are covered by the universally quantified state), the
text that is displayed, measured, and scanned for a time suffix is the
arrived string with every `'Ö'` replaced by `'O'` and every `'ö'` replaced
by `'o'` (`pySubst`), not the raw string; and `pySubst` performs exactly
that substitution on the driver's motivating message. -/
theorem charset_substitution :
    (∀ (cfg : Config) (time_now : ℚ) (s : DriverState) (m : String),
        s.next_message = some m →
        (stateMachine cfg time_now s).1.current_message = m ∧
        (stateMachine cfg time_now s).1.display_message = pySubst m ∧
        (stateMachine cfg time_now s).1.message_pixel_width =
            get_message_width cfg (pySubst m) ∧
        (stateMachine cfg time_now s).1.time_string = parse_time_string (pySubst m)) ∧
    pySubst "134 Östberghöjden 3 min" = "134 Ostberghojden 3 min" := by
  constructor
  · intro cfg time_now s m h
    obtain ⟨-, h2, h3, -, h5, h6, -, -⟩ := stateMachine_accept cfg time_now s m h
    exact ⟨h2, h3, h5, h6⟩
  · decide

/-- C10 witness: the theorem applied to a concrete message containing both
substituted characters. -/
theorem charset_substitution_witness :
    ({ initState cfg0 0 with next_message := some "Göteborg Ö" } : DriverState).next_message =
        some "Göteborg Ö" ∧
    (stateMachine cfg0 2 { initState cfg0 0 with next_message := some "Göteborg Ö" }).1.display_message =
        "Goteborg O" := by
  refine ⟨rfl, ?_⟩
  rw [(charset_substitution.1 cfg0 2 _ "Göteborg Ö" rfl).2.1]
  decide

/-- C4 counterexample: at the concrete input of an empty line arriving in
the startup idle state, the handling tick ends in phase `scrolling`, not
`Idle` as the claim states (the empty string is accepted through the normal
acceptance path, which always enters `"scrolling"`, line 135). -/
theorem empty_arrival_counterexample :
    (tick cfg0 0 (some "") (initState cfg0 0)).1.state = Phase.scrolling ∧
    (tick cfg0 0 (some "") (initState cfg0 0)).1.state ≠ Phase.idle_after_pause := by
  have h := (stateMachine_accept cfg0 0
    { initState cfg0 0 with next_message := some "" } "" rfl).1
  exact ⟨h, by rw [tick_some, h]; simp⟩

/-- C4 amended: an empty-string arrival, whatever the current phase, sets
the active message to a blank message (display text empty, pixel width 0)
and resets the offset to 0, preempting scrolling or pausing — but it enters
`scrolling`, not `Idle`; `Idle` is only reached on a later tick when the
blank message has "scrolled off". -/
theorem empty_arrival_amended :
    ∀ (cfg : Config) (time_now : ℚ) (s : DriverState),
      s.next_message = some "" →
      (stateMachine cfg time_now s).1.state = Phase.scrolling ∧
      (stateMachine cfg time_now s).1.display_message = "" ∧
      (stateMachine cfg time_now s).1.message_pixel_width = 0 ∧
      (stateMachine cfg time_now s).1.current_x_offset = 0 := by
  intro cfg time_now s h
  obtain ⟨h1, -, h3, -, h5, -, h7, -⟩ := stateMachine_accept cfg time_now s "" h
  refine ⟨h1, ?_, ?_, h7⟩
  · rw [h3]; rfl
  · rw [h5]; rfl

/-- C4 witness: the amended claim applied to an empty line pending in a
concrete paused state. -/
theorem empty_arrival_amended_witness :
    ({ initState cfg0 0 with state := Phase.paused, next_message := some "" } :
        DriverState).next_message = some "" ∧
    (stateMachine cfg0 3
        { initState cfg0 0 with state := Phase.paused, next_message := some "" }).1.state =
      Phase.scrolling ∧
    (stateMachine cfg0 3
        { initState cfg0 0 with state := Phase.paused, next_message := some "" }).1.display_message =
      "" := by
  refine ⟨rfl, ?_, ?_⟩
  · exact (empty_arrival_amended cfg0 3 _ rfl).1
  · exact (empty_arrival_amended cfg0 3 _ rfl).2.1

/-- C8 counterexample: with a metrics provider whose call raises, the width
helper for the non-empty text `"Hi"` returns the estimate `len * 6 = 12`,
not 0 as the claim states. -/
theorem width_fallback_counterexample :
    get_message_width cfgBad "Hi" = 12 ∧ get_message_width cfgBad "Hi" ≠ 0 := by
  decide

/-- C8 amended: the width helper never raises (it is total); empty text
yields 0; a successful metrics call is passed through (so a zero-length
metrics result gives width 0); and a failing (raising) metrics call is
replaced by the estimate of 6 pixels per character, not by 0. -/
theorem width_fallback_amended :
    ∀ (cfg : Config) (m : String),
      (m = "" → get_message_width cfg m = 0) ∧
      (∀ w, m ≠ "" → cfg.textsize m = some w → get_message_width cfg m = w) ∧
      (m ≠ "" → cfg.textsize m = none → get_message_width cfg m = m.length * 6) := by
  intro cfg m
  refine ⟨?_, ?_, ?_⟩
  · intro h
    simp [get_message_width, h]
  · intro w hm hw
    simp [get_message_width, hm, hw]
  · intro hm hw
    simp [get_message_width, hm, hw]

/-- C8 witness: the amended claim applied to the empty string, to a
successful zero-width metrics result, and to a failing metrics call. -/
theorem width_fallback_amended_witness :
    get_message_width cfg0 "" = 0 ∧
    get_message_width ⟨32, fun _ => some 0⟩ "Hi" = 0 ∧
    ("Hi" : String) ≠ "" ∧ cfgBad.textsize "Hi" = none ∧
    get_message_width cfgBad "Hi" = 2 * 6 := by
  refine ⟨(width_fallback_amended cfg0 "").1 rfl, ?_, by decide, rfl, ?_⟩
  · exact (width_fallback_amended ⟨32, fun _ => some 0⟩ "Hi").2.1 0 (by decide) rfl
  · exact (width_fallback_amended cfgBad "Hi").2.2 (by decide) rfl

/-- C9 counterexample: at startup the controller does have an active
message — the default `"Starting..."` — and the first idle tick draws it at
`draw_x = 0`, contradicting "no active message (nothing to render on the
first ticks)". -/
theorem initial_state_counterexample :
    (initState cfg0 0).display_message = "Starting..." ∧
    (initState cfg0 0).display_message ≠ "" ∧
    drawFrame (tick cfg0 1 none (initState cfg0 0)) = some (0, "Starting...") := by
  decide

/-- C9 amended: before any message event has been consumed the controller is
in phase `Idle`, but with the default active message `"Starting..."`
(rendered on the first ticks), and ticks without arrivals keep it in `Idle`
with that message unchanged until a new message arrives. -/
theorem initial_state_amended :
    (∀ (cfg : Config) (t0 : ℚ),
        (initState cfg t0).state = Phase.idle_after_pause ∧
        (initState cfg t0).display_message = "Starting..." ∧
        (initState cfg t0).next_message = none) ∧
    (∀ (cfg : Config) (time_now : ℚ) (s : DriverState),
        s.state = Phase.idle_after_pause → s.next_message = none →
        (tick cfg time_now none s).1.state = Phase.idle_after_pause ∧
        (tick cfg time_now none s).1.display_message = s.display_message ∧
        (tick cfg time_now none s).1.current_message = s.current_message) := by
  constructor
  · intro cfg t0
    exact ⟨rfl, rfl, rfl⟩
  · intro cfg time_now s hs hn
    rw [tick_none, stateMachine_idle_noMsg cfg time_now s hs hn]
    obtain ⟨h1, h2, h3, -, -⟩ := idleTick_fields s
    exact ⟨h1.trans hs, h2, h3⟩

/-- C9 witness: the amended claim applied at startup and at a concrete
arrival-free tick. -/
theorem initial_state_amended_witness :
    (initState cfg0 7).state = Phase.idle_after_pause ∧
    (tick cfg0 9 none (initState cfg0 7)).1.display_message =
      (initState cfg0 7).display_message := by
  constructor
  · exact (initial_state_amended.1 cfg0 7).1
  · exact (initial_state_amended.2 cfg0 9 (initState cfg0 7) rfl rfl).2.1

/-- C7: last-write-wins pending slot.  Two arrival events landing in the
single-slot buffer before the state machine runs are indistinguishable from
the second arrival alone: the resulting state and the drawn frame do not
depend on the first message in any way, so only the second is ever
rendered and the first is fully discarded. -/
theorem last_write_wins :
    ∀ (cfg : Config) (time_now : ℚ) (s : DriverState) (m1 m2 : String),
      stateMachine cfg time_now (readStdin (readStdin s (some m1)) (some m2)) =
        stateMachine cfg time_now (readStdin s (some m2)) ∧
      drawFrame (stateMachine cfg time_now (readStdin (readStdin s (some m1)) (some m2))) =
        drawFrame (stateMachine cfg time_now (readStdin s (some m2))) := by
  intro cfg time_now s m1 m2
  exact ⟨rfl, rfl⟩

/-- C6 counterexample: a reachable scrolling tick (accept `"14:05"` at time
0, then tick at time 1/20 with no arrival) accumulates
`offset = 13 * (1/20) = 13/20` and emits `draw_x = 32 - int(13/20) = 32`,
whereas `display_width - round(offset) = 32 - 1 = 31`: the code truncates
with `int()`, it does not round. -/
theorem scroll_rounding_counterexample :
    (tick cfg0 0 (some "14:05") (initState cfg0 0)).1.state = Phase.scrolling ∧
    (tick cfg0 0 (some "14:05") (initState cfg0 0)).1.next_message = none ∧
    (tick cfg0 (1/20) none ((tick cfg0 0 (some "14:05") (initState cfg0 0)).1)).1.current_x_offset =
      13/20 ∧
    (tick cfg0 (1/20) none ((tick cfg0 0 (some "14:05") (initState cfg0 0)).1)).1.draw_x ≠
      (32 : ℤ) -
        pyRound
          ((tick cfg0 (1/20) none ((tick cfg0 0 (some "14:05") (initState cfg0 0)).1)).1.current_x_offset) := by
  obtain ⟨ha1, -, -, ha4, -, -, ha7, ha8⟩ :=
    stateMachine_accept cfg0 0 { initState cfg0 0 with next_message := some "14:05" } "14:05" rfl
  have h1 : (tick cfg0 0 (some "14:05") (initState cfg0 0)).1.state = Phase.scrolling := ha1
  have hn : (tick cfg0 0 (some "14:05") (initState cfg0 0)).1.next_message = none := ha4
  have hoff : (tick cfg0 0 (some "14:05") (initState cfg0 0)).1.current_x_offset = 0 := ha7
  have hlast : (tick cfg0 0 (some "14:05") (initState cfg0 0)).1.last_update_time = 0 := ha8
  have e2 : tick cfg0 (1/20) none ((tick cfg0 0 (some "14:05") (initState cfg0 0)).1) =
      scrollTick cfg0 (1/20) ((tick cfg0 0 (some "14:05") (initState cfg0 0)).1) := by
    rw [tick_none, stateMachine_scrolling _ _ _ h1]
  obtain ⟨-, hoff2, -, hdx2, -, -, -, -⟩ :=
    scrollTick_noMsg cfg0 (1/20) ((tick cfg0 0 (some "14:05") (initState cfg0 0)).1) hn
  have harith : (tick cfg0 0 (some "14:05") (initState cfg0 0)).1.current_x_offset +
      SCROLL_SPEED_PPS *
        ((1/20 : ℚ) - (tick cfg0 0 (some "14:05") (initState cfg0 0)).1.last_update_time) =
      13/20 := by
    rw [hoff, hlast]
    norm_num [SCROLL_SPEED_PPS]
  have hfloor : ⌊(13/20 : ℚ)⌋ = 0 := by
    rw [Int.floor_eq_iff]
    norm_num
  have hint : pyInt (13/20) = 0 := by
    rw [pyInt, if_pos (by norm_num)]
    exact hfloor
  have hround : pyRound (13/20) = 1 := by
    simp only [pyRound, hfloor]
    norm_num
  refine ⟨h1, hn, ?_, ?_⟩
  · rw [e2, hoff2, harith]
  · rw [e2, hdx2, hoff2, harith, hint, hround]
    show (32 : ℤ) - 0 ≠ 32 - 1
    norm_num

/-- C6 amended: on every scrolling tick not preempted by an arrival, the
offset (a rational accumulator mirroring the Python float) increases by
exactly `SCROLL_SPEED_PPS * (now - last_update_time)`, and the emitted
`draw_x` equals `display_width - int(offset)` where `int()` truncates toward
zero (`pyInt`) — truncation, not `round()`, applied only at the point of
producing output. -/
theorem scroll_integration_amended :
    ∀ (cfg : Config) (time_now : ℚ) (s : DriverState),
      s.state = Phase.scrolling → s.next_message = none →
      (tick cfg time_now none s).1.current_x_offset =
          s.current_x_offset + SCROLL_SPEED_PPS * (time_now - s.last_update_time) ∧
      (tick cfg time_now none s).1.last_update_time = time_now ∧
      (tick cfg time_now none s).1.draw_x =
          (cfg.W : ℤ) - pyInt ((tick cfg time_now none s).1.current_x_offset) := by
  intro cfg time_now s hs hn
  rw [tick_none, stateMachine_scrolling cfg time_now s hs]
  obtain ⟨-, h2, h3, h4, -, -, -, -⟩ := scrollTick_noMsg cfg time_now s hn
  exact ⟨h2, h3, by rw [h4, h2]⟩

/-- C6 witness: the amended claim applied to a concrete scrolling state. -/
theorem scroll_integration_amended_witness :
    ({ initState cfg0 0 with state := Phase.scrolling } : DriverState).state =
        Phase.scrolling ∧
    ({ initState cfg0 0 with state := Phase.scrolling } : DriverState).next_message = none ∧
    (tick cfg0 2 none { initState cfg0 0 with state := Phase.scrolling }).1.current_x_offset =
      0 + SCROLL_SPEED_PPS * (2 - 0) := by
  refine ⟨rfl, rfl, ?_⟩
  exact (scroll_integration_amended cfg0 2 _ rfl rfl).1

/-- C2: pause lifecycle.  (1) In every reachable paused state the frozen
draw position is `display_width - pixel_width`; (2) a scrolling tick whose
message has a truthy time suffix, is wider than the display, and whose
accumulated offset has reached `pixel_width - display_width` enters
`paused` with `pause_draw_x = display_width - pixel_width` and
`pause_start_time = now`; (3) a paused tick before the 10-unit dwell has
elapsed only re-freezes `draw_x` at `pause_draw_x`, changing nothing else
(so `paused` persists with the same frozen position and it is entered
exactly once); (4) once `now - pause_start_time >= 10` the tick enters
`Idle`, clears the display text, and still emits the frozen `draw_x`;
(5) an idle tick without an arrival stays idle, so `paused` is not
re-entered after the pause. -/
theorem pause_lifecycle :
    (∀ (cfg : Config) (s : DriverState), Reachable cfg s → s.state = Phase.paused →
        s.pause_draw_x = (cfg.W : ℤ) - (s.message_pixel_width : ℤ)) ∧
    (∀ (cfg : Config) (time_now : ℚ) (s : DriverState),
        s.state = Phase.scrolling → s.next_message = none →
        pyTruthy s.time_string = true → cfg.W < s.message_pixel_width →
        (s.message_pixel_width : ℚ) - (cfg.W : ℚ) ≤
            s.current_x_offset + SCROLL_SPEED_PPS * (time_now - s.last_update_time) →
        (tick cfg time_now none s).1.state = Phase.paused ∧
        (tick cfg time_now none s).1.pause_draw_x =
            (cfg.W : ℤ) - (s.message_pixel_width : ℤ) ∧
        (tick cfg time_now none s).1.pause_start_time = time_now) ∧
    (∀ (cfg : Config) (time_now : ℚ) (s : DriverState),
        s.state = Phase.paused → s.next_message = none →
        time_now - s.pause_start_time < END_PAUSE_S →
        (tick cfg time_now none s).1 = { s with draw_x := s.pause_draw_x }) ∧
    (∀ (cfg : Config) (time_now : ℚ) (s : DriverState),
        s.state = Phase.paused → s.next_message = none →
        END_PAUSE_S ≤ time_now - s.pause_start_time →
        (tick cfg time_now none s).1.state = Phase.idle_after_pause ∧
        (tick cfg time_now none s).1.display_message = "" ∧
        (tick cfg time_now none s).1.draw_x = s.pause_draw_x) ∧
    (∀ (cfg : Config) (time_now : ℚ) (s : DriverState),
        s.state = Phase.idle_after_pause → s.next_message = none →
        (tick cfg time_now none s).1.state = Phase.idle_after_pause) := by
  refine ⟨?_, ?_, ?_, ?_, ?_⟩
  · intro cfg s hr hp
    exact (reachable_pausedInv cfg s hr hp).2.2
  · intro cfg time_now s hs hn hts hw hoff
    rw [tick_none, stateMachine_scrolling cfg time_now s hs]
    obtain ⟨h1, h2, h3, -⟩ := scrollTick_pause cfg time_now s hn hts hw hoff
    exact ⟨h1, h2, h3⟩
  · intro cfg time_now s hs hn ht
    rw [tick_none, stateMachine_paused cfg time_now s hs]
    exact pausedTick_stay cfg time_now s hn ht
  · intro cfg time_now s hs hn ht
    rw [tick_none, stateMachine_paused cfg time_now s hs]
    have he := pausedTick_expire cfg time_now s hn ht
    exact ⟨by rw [show (pausedTick cfg time_now s, false).1 = pausedTick cfg time_now s from rfl,
        he], by rw [show (pausedTick cfg time_now s, false).1 = pausedTick cfg time_now s from rfl,
        he], by rw [show (pausedTick cfg time_now s, false).1 = pausedTick cfg time_now s from rfl,
        he]⟩
  · intro cfg time_now s hs hn
    rw [tick_none, stateMachine_idle_noMsg cfg time_now s hs hn]
    exact (idleTick_fields s).1.trans hs

/-- C2 witness: accept `"14:05"` (width 40 > 32, truthy suffix) at time 0,
scroll to offset 13 at time 1 (past the trigger 40-32=8), observe the pause
at `draw_x = -8`, hold it at time 2, and expire into idle at time 20. -/
theorem pause_lifecycle_witness :
    (tick cfg0 1 none ((tick cfg0 0 (some "14:05") (initState cfg0 0)).1)).1.state =
        Phase.paused ∧
    (tick cfg0 1 none ((tick cfg0 0 (some "14:05") (initState cfg0 0)).1)).1.pause_draw_x =
        (cfg0.W : ℤ) -
          ((tick cfg0 1 none ((tick cfg0 0 (some "14:05") (initState cfg0 0)).1)).1.message_pixel_width : ℤ) ∧
    (tick cfg0 1 none ((tick cfg0 0 (some "14:05") (initState cfg0 0)).1)).1.pause_draw_x = -8 ∧
    (tick cfg0 2 none ((tick cfg0 1 none ((tick cfg0 0 (some "14:05") (initState cfg0 0)).1)).1)).1.draw_x = -8 ∧
    (tick cfg0 2 none ((tick cfg0 1 none ((tick cfg0 0 (some "14:05") (initState cfg0 0)).1)).1)).1.state = Phase.paused ∧
    (tick cfg0 20 none ((tick cfg0 1 none ((tick cfg0 0 (some "14:05") (initState cfg0 0)).1)).1)).1.state = Phase.idle_after_pause ∧
    (tick cfg0 20 none ((tick cfg0 1 none ((tick cfg0 0 (some "14:05") (initState cfg0 0)).1)).1)).1.display_message = "" ∧
    (tick cfg0 4 none (initState cfg0 0)).1.state = Phase.idle_after_pause := by
  obtain ⟨ha1, -, -, ha4, ha5, ha6, ha7, ha8⟩ :=
    stateMachine_accept cfg0 0 { initState cfg0 0 with next_message := some "14:05" } "14:05" rfl
  have h1 : (tick cfg0 0 (some "14:05") (initState cfg0 0)).1.state = Phase.scrolling := ha1
  have hn : (tick cfg0 0 (some "14:05") (initState cfg0 0)).1.next_message = none := ha4
  have hw40 : get_message_width cfg0 (pySubst "14:05") = 40 := by decide
  have hwd : (tick cfg0 0 (some "14:05") (initState cfg0 0)).1.message_pixel_width = 40 := by
    rw [show (tick cfg0 0 (some "14:05") (initState cfg0 0)).1.message_pixel_width =
      get_message_width cfg0 (pySubst "14:05") from ha5, hw40]
  have hts : pyTruthy (tick cfg0 0 (some "14:05") (initState cfg0 0)).1.time_string = true := by
    rw [show (tick cfg0 0 (some "14:05") (initState cfg0 0)).1.time_string =
      parse_time_string (pySubst "14:05") from ha6]
    decide
  have hwlt : cfg0.W < (tick cfg0 0 (some "14:05") (initState cfg0 0)).1.message_pixel_width := by
    rw [hwd]; decide
  have hoff : ((tick cfg0 0 (some "14:05") (initState cfg0 0)).1.message_pixel_width : ℚ) -
      (cfg0.W : ℚ) ≤
      (tick cfg0 0 (some "14:05") (initState cfg0 0)).1.current_x_offset +
        SCROLL_SPEED_PPS *
          (1 - (tick cfg0 0 (some "14:05") (initState cfg0 0)).1.last_update_time) := by
    rw [hwd, show (tick cfg0 0 (some "14:05") (initState cfg0 0)).1.current_x_offset = 0 from ha7,
      show (tick cfg0 0 (some "14:05") (initState cfg0 0)).1.last_update_time = 0 from ha8]
    norm_num [SCROLL_SPEED_PPS, cfg0]
  obtain ⟨hp1, hp2, hp3⟩ :=
    pause_lifecycle.2.1 cfg0 1 ((tick cfg0 0 (some "14:05") (initState cfg0 0)).1)
      h1 hn hts hwlt hoff
  have hreach : Reachable cfg0 ((tick cfg0 1 none ((tick cfg0 0 (some "14:05") (initState cfg0 0)).1)).1) :=
    Reachable.step _ 1 none (Reachable.step _ 0 (some "14:05") (Reachable.init 0))
  have hinv := pause_lifecycle.1 cfg0 _ hreach hp1
  have hpdx8 : (tick cfg0 1 none ((tick cfg0 0 (some "14:05") (initState cfg0 0)).1)).1.pause_draw_x = -8 := by
    rw [hp2, hwd]
    decide
  have e2 : tick cfg0 1 none ((tick cfg0 0 (some "14:05") (initState cfg0 0)).1) =
      scrollTick cfg0 1 ((tick cfg0 0 (some "14:05") (initState cfg0 0)).1) := by
    rw [tick_none, stateMachine_scrolling _ _ _ h1]
  have hnext2 : (tick cfg0 1 none ((tick cfg0 0 (some "14:05") (initState cfg0 0)).1)).1.next_message = none := by
    rw [e2]
    exact (scrollTick_noMsg cfg0 1 _ hn).2.2.2.2.2.2.1
  have hstay := pause_lifecycle.2.2.1 cfg0 2
    ((tick cfg0 1 none ((tick cfg0 0 (some "14:05") (initState cfg0 0)).1)).1) hp1 hnext2
    (by rw [hp3]; norm_num [END_PAUSE_S])
  have hexp := pause_lifecycle.2.2.2.1 cfg0 20
    ((tick cfg0 1 none ((tick cfg0 0 (some "14:05") (initState cfg0 0)).1)).1) hp1 hnext2
    (by rw [hp3]; norm_num [END_PAUSE_S])
  refine ⟨hp1, hinv, hpdx8, ?_, ?_, hexp.1, hexp.2.1,
    pause_lifecycle.2.2.2.2 cfg0 4 (initState cfg0 0) rfl rfl⟩
  · rw [hstay]
    exact hpdx8
  · rw [hstay]
    exact hp1

/-- C5: never-paused invariant.  (1) Every reachable paused state has a
truthy time suffix and a pixel width exceeding the display width; (2) a
scrolling tick whose active message has no (falsy) time suffix never enters
`paused`; (3) when the pause condition is false and
`draw_x < -pixel_width`, the scrolling tick enters `Idle` and clears the
display text to blank. -/
theorem never_paused_invariant :
    (∀ (cfg : Config) (s : DriverState), Reachable cfg s → s.state = Phase.paused →
        pyTruthy s.time_string = true ∧ cfg.W < s.message_pixel_width) ∧
    (∀ (cfg : Config) (time_now : ℚ) (s : DriverState),
        s.state = Phase.scrolling → s.next_message = none →
        pyTruthy s.time_string = false →
        (tick cfg time_now none s).1.state ≠ Phase.paused) ∧
    (∀ (cfg : Config) (time_now : ℚ) (s : DriverState),
        s.state = Phase.scrolling → s.next_message = none →
        ¬ (pyTruthy s.time_string = true ∧ cfg.W < s.message_pixel_width ∧
            (s.message_pixel_width : ℚ) - (cfg.W : ℚ) ≤
              s.current_x_offset + SCROLL_SPEED_PPS * (time_now - s.last_update_time)) →
        (cfg.W : ℤ) -
            pyInt (s.current_x_offset + SCROLL_SPEED_PPS * (time_now - s.last_update_time)) <
            -(s.message_pixel_width : ℤ) →
        (tick cfg time_now none s).1.state = Phase.idle_after_pause ∧
        (tick cfg time_now none s).1.display_message = "") := by
  refine ⟨?_, ?_, ?_⟩
  · intro cfg s hr hp
    exact ⟨(reachable_pausedInv cfg s hr hp).1, (reachable_pausedInv cfg s hr hp).2.1⟩
  · intro cfg time_now s hs hn hts hp
    rw [tick_none, stateMachine_scrolling cfg time_now s hs] at hp
    obtain ⟨htrue, -, -⟩ := scrollTick_pausedInv cfg time_now s hs hp
    obtain ⟨-, -, -, -, -, hts2, -, -⟩ := scrollTick_noMsg cfg time_now s hn
    rw [hts2, hts] at htrue
    exact absurd htrue (by simp)
  · intro cfg time_now s hs hn hc hd
    rw [tick_none, stateMachine_scrolling cfg time_now s hs]
    exact scrollTick_offscreen cfg time_now s hn hc hd

/-- C5 witness: part (1) at the reachable paused state of the `"14:05"`
run (the paused hypothesis is discharged by replaying the pause entry);
parts (2) and (3) at the suffix-free message `"Hello"`, which never pauses
and scrolls fully off by time 10. -/
theorem never_paused_invariant_witness :
    (tick cfg0 1 none ((tick cfg0 0 (some "14:05") (initState cfg0 0)).1)).1.state =
        Phase.paused ∧
    pyTruthy (tick cfg0 1 none ((tick cfg0 0 (some "14:05") (initState cfg0 0)).1)).1.time_string =
        true ∧
    cfg0.W <
      (tick cfg0 1 none ((tick cfg0 0 (some "14:05") (initState cfg0 0)).1)).1.message_pixel_width ∧
    (tick cfg0 9 none ((tick cfg0 0 (some "Hello") (initState cfg0 0)).1)).1.state ≠
        Phase.paused ∧
    (tick cfg0 10 none ((tick cfg0 0 (some "Hello") (initState cfg0 0)).1)).1.state =
        Phase.idle_after_pause ∧
    (tick cfg0 10 none ((tick cfg0 0 (some "Hello") (initState cfg0 0)).1)).1.display_message =
        "" := by
  obtain ⟨ha1, -, -, ha4, ha5, ha6, ha7, ha8⟩ :=
    stateMachine_accept cfg0 0 { initState cfg0 0 with next_message := some "14:05" } "14:05" rfl
  have h1 : (tick cfg0 0 (some "14:05") (initState cfg0 0)).1.state = Phase.scrolling := ha1
  have hn : (tick cfg0 0 (some "14:05") (initState cfg0 0)).1.next_message = none := ha4
  have hts : pyTruthy (tick cfg0 0 (some "14:05") (initState cfg0 0)).1.time_string = true := by
    rw [show (tick cfg0 0 (some "14:05") (initState cfg0 0)).1.time_string =
      parse_time_string (pySubst "14:05") from ha6]
    decide
  have hwd : (tick cfg0 0 (some "14:05") (initState cfg0 0)).1.message_pixel_width = 40 := by
    rw [show (tick cfg0 0 (some "14:05") (initState cfg0 0)).1.message_pixel_width =
      get_message_width cfg0 (pySubst "14:05") from ha5]
    decide
  have hwlt : cfg0.W < (tick cfg0 0 (some "14:05") (initState cfg0 0)).1.message_pixel_width := by
    rw [hwd]; decide
  have hoff : ((tick cfg0 0 (some "14:05") (initState cfg0 0)).1.message_pixel_width : ℚ) -
      (cfg0.W : ℚ) ≤
      (tick cfg0 0 (some "14:05") (initState cfg0 0)).1.current_x_offset +
        SCROLL_SPEED_PPS *
          (1 - (tick cfg0 0 (some "14:05") (initState cfg0 0)).1.last_update_time) := by
    rw [hwd, show (tick cfg0 0 (some "14:05") (initState cfg0 0)).1.current_x_offset = 0 from ha7,
      show (tick cfg0 0 (some "14:05") (initState cfg0 0)).1.last_update_time = 0 from ha8]
    norm_num [SCROLL_SPEED_PPS, cfg0]
  have e2 : tick cfg0 1 none ((tick cfg0 0 (some "14:05") (initState cfg0 0)).1) =
      scrollTick cfg0 1 ((tick cfg0 0 (some "14:05") (initState cfg0 0)).1) := by
    rw [tick_none, stateMachine_scrolling _ _ _ h1]
  have hp1 : (tick cfg0 1 none ((tick cfg0 0 (some "14:05") (initState cfg0 0)).1)).1.state =
      Phase.paused := by
    rw [e2]
    exact (scrollTick_pause cfg0 1 _ hn hts hwlt hoff).1
  have hinv := never_paused_invariant.1 cfg0 _
    (Reachable.step _ 1 none (Reachable.step _ 0 (some "14:05") (Reachable.init 0))) hp1
  obtain ⟨hb1, -, -, hb4, hb5, hb6, hb7, hb8⟩ :=
    stateMachine_accept cfg0 0 { initState cfg0 0 with next_message := some "Hello" } "Hello" rfl
  have htsf : pyTruthy (tick cfg0 0 (some "Hello") (initState cfg0 0)).1.time_string = false := by
    rw [show (tick cfg0 0 (some "Hello") (initState cfg0 0)).1.time_string =
      parse_time_string (pySubst "Hello") from hb6]
    decide
  have hwd : (tick cfg0 0 (some "Hello") (initState cfg0 0)).1.message_pixel_width = 40 := by
    rw [show (tick cfg0 0 (some "Hello") (initState cfg0 0)).1.message_pixel_width =
      get_message_width cfg0 (pySubst "Hello") from hb5]
    decide
  have hc : ¬ (pyTruthy (tick cfg0 0 (some "Hello") (initState cfg0 0)).1.time_string = true ∧
      cfg0.W < (tick cfg0 0 (some "Hello") (initState cfg0 0)).1.message_pixel_width ∧
      ((tick cfg0 0 (some "Hello") (initState cfg0 0)).1.message_pixel_width : ℚ) -
          (cfg0.W : ℚ) ≤
        (tick cfg0 0 (some "Hello") (initState cfg0 0)).1.current_x_offset +
          SCROLL_SPEED_PPS *
            (10 - (tick cfg0 0 (some "Hello") (initState cfg0 0)).1.last_update_time)) := by
    intro hcon
    rw [htsf] at hcon
    exact absurd hcon.1 (by simp)
  have hd : (cfg0.W : ℤ) -
      pyInt ((tick cfg0 0 (some "Hello") (initState cfg0 0)).1.current_x_offset +
        SCROLL_SPEED_PPS *
          (10 - (tick cfg0 0 (some "Hello") (initState cfg0 0)).1.last_update_time)) <
      -((tick cfg0 0 (some "Hello") (initState cfg0 0)).1.message_pixel_width : ℤ) := by
    rw [hwd, show (tick cfg0 0 (some "Hello") (initState cfg0 0)).1.current_x_offset = 0 from hb7,
      show (tick cfg0 0 (some "Hello") (initState cfg0 0)).1.last_update_time = 0 from hb8,
      show (0 : ℚ) + SCROLL_SPEED_PPS * (10 - 0) = 130 by norm_num [SCROLL_SPEED_PPS],
      pyInt_eq_of_nonneg 130 130 (by norm_num) (by norm_num) (by norm_num)]
    decide
  refine ⟨hp1, hinv.1, hinv.2, ?_, ?_, ?_⟩
  · exact never_paused_invariant.2.1 cfg0 9 _ hb1 hb4 htsf
  · exact (never_paused_invariant.2.2 cfg0 10 _ hb1 hb4 hc hd).1
  · exact (never_paused_invariant.2.2 cfg0 10 _ hb1 hb4 hc hd).2

end MatrixDriver
